import Mathlib

/-
Shallow embedding of toshi/database.py: the resilient connection pool
(SafePool), the transaction scope (HandlerDatabasePoolContext), the
migration runner (create_tables) and the migration waiter
(wait_for_migration), together with theorems checking the specification
claims against these definitions.
-/

set_option autoImplicit false

namespace Toshi

/-- Conn models a physical driver connection: an identifier plus the
result of `con.is_closed()` at acquisition time. -/
structure Conn where
  ident : Nat
  closed : Bool
deriving DecidableEq, Repr

/-- SafePool.acquire models `SafePool._acquire` (and the pre-0.12
`_acquire_impl`): the underlying driver pool hands back connections in
order (the input list); the loop releases every closed connection back to
the underlying pool and retries until an open one is obtained.  The
result is the connection returned to the caller together with the list of
connections released back to the underlying pool; `none` means the
underlying pool ran out of connections to offer (the loop in the source
would still be awaiting the driver). -/
def SafePool.acquire : List Conn → Option (Conn × List Conn)
  | [] => none
  | con :: rest =>
    if con.closed then
      match SafePool.acquire rest with
      | none => none
      | some (result, released) => some (result, con :: released)
    else
      some (con, [])

/-- DatabaseError models `toshi.errors.DatabaseError`, carrying its
message text. -/
structure DatabaseError where
  msg : String
deriving DecidableEq, Repr

/-- HandlerDatabasePoolContext models the transaction scope's mutable
state (`__slots__`): the target pool, optional timeout, autocommit flag,
the borrowed connection, whether a transaction is active, the done flag,
and the ordered callback list.  Pools, connections and callbacks are
identified by natural numbers. -/
structure HandlerDatabasePoolContext where
  pool : Nat
  timeout : Option Nat
  autocommit : Bool
  connection : Option Nat
  transaction : Bool
  done : Bool
  callbacks : List Nat
deriving DecidableEq, Repr

/-- addCallback models `on_commit` on the callback list: append the
callback unless it is already registered (deduplication by identity). -/
def addCallback (cbs : List Nat) (callback : Nat) : List Nat :=
  if callback ∈ cbs then cbs else cbs ++ [callback]

/-- on_commit registers a callback on the scope, deduplicated. -/
def HandlerDatabasePoolContext.on_commit (ctx : HandlerDatabasePoolContext)
    (callback : Nat) : HandlerDatabasePoolContext :=
  { ctx with callbacks := addCallback ctx.callbacks callback }

/-- TxEvent records the externally visible actions a transaction scope
performs against the driver: transaction rollback/commit/start, running
one registered callback, and releasing the borrowed connection back to
the pool. -/
inductive TxEvent where
  | rollbackTx
  | commitTx
  | startTx
  | runCallback (callback : Nat)
  | releaseConn (con : Option Nat)
deriving DecidableEq, Repr

/-- commit models `HandlerDatabasePoolContext.commit`.  The function
`reg` gives, for each callback, the list of callbacks it registers via
`on_commit` while it runs (in order).  When a transaction is active: the
callback list is copied and cleared, the transaction is committed, the
copied callbacks run in registration order (their own registrations
landing in the now-cleared live list), and either a fresh transaction is
started (`create_new_transaction`) or the scope is marked done.  With no
active transaction it fails with "No transaction to commit".  Returns
the updated scope and the event trace. -/
def HandlerDatabasePoolContext.commit (ctx : HandlerDatabasePoolContext)
    (reg : Nat → List Nat) (create_new_transaction : Bool) :
    Except DatabaseError (HandlerDatabasePoolContext × List TxEvent) :=
  if ctx.transaction then
    let fired := ctx.callbacks
    let newCallbacks := fired.foldl (fun acc c => (reg c).foldl addCallback acc) []
    let ctx2 :=
      if create_new_transaction then
        { ctx with callbacks := newCallbacks, transaction := true }
      else
        { ctx with callbacks := newCallbacks, transaction := false, done := true }
    Except.ok (ctx2,
      TxEvent.commitTx :: fired.map TxEvent.runCallback ++
        (if create_new_transaction then [TxEvent.startTx] else []))
  else
    Except.error ⟨"No transaction to commit"⟩

/-- execute forwards the query to the active connection when a
transaction is in progress, and raises otherwise. -/
def HandlerDatabasePoolContext.execute (ctx : HandlerDatabasePoolContext)
    (query : String) : Except DatabaseError String :=
  if ctx.transaction then Except.ok query
  else Except.error ⟨"No transaction in progress"⟩

/-- executemany forwards to the active connection when a transaction is
in progress, and raises otherwise. -/
def HandlerDatabasePoolContext.executemany (ctx : HandlerDatabasePoolContext)
    (command : String) (args : List (List Nat)) :
    Except DatabaseError (String × List (List Nat)) :=
  if ctx.transaction then Except.ok (command, args)
  else Except.error ⟨"No transaction in progress"⟩

/-- fetch forwards to the active connection when a transaction is in
progress, and raises otherwise. -/
def HandlerDatabasePoolContext.fetch (ctx : HandlerDatabasePoolContext)
    (query : String) : Except DatabaseError String :=
  if ctx.transaction then Except.ok query
  else Except.error ⟨"No transaction in progress"⟩

/-- fetchval forwards to the active connection (with a column index)
when a transaction is in progress, and raises otherwise. -/
def HandlerDatabasePoolContext.fetchval (ctx : HandlerDatabasePoolContext)
    (query : String) (column : Nat) : Except DatabaseError (String × Nat) :=
  if ctx.transaction then Except.ok (query, column)
  else Except.error ⟨"No transaction in progress"⟩

/-- fetchrow forwards to the active connection when a transaction is in
progress, and raises otherwise. -/
def HandlerDatabasePoolContext.fetchrow (ctx : HandlerDatabasePoolContext)
    (query : String) : Except DatabaseError String :=
  if ctx.transaction then Except.ok query
  else Except.error ⟨"No transaction in progress"⟩

/-- aexit models `__aexit__`: if a transaction is still active it is
rolled back when an error is in flight or autocommit is off, and
committed (via `commit`, firing callbacks) when autocommit is on and no
error occurred; in every case the borrowed connection is then released
back to the pool, the connection and transaction slots are cleared and
the scope is marked done.  Returns the updated scope and the event
trace. -/
def HandlerDatabasePoolContext.aexit (ctx : HandlerDatabasePoolContext)
    (reg : Nat → List Nat) (errInFlight : Bool) :
    HandlerDatabasePoolContext × List TxEvent :=
  let resolved :=
    if ctx.transaction then
      if errInFlight || ctx.autocommit = false then
        ({ ctx with transaction := false }, [TxEvent.rollbackTx])
      else
        match ctx.commit reg false with
        | Except.ok (ctx2, evts) => (ctx2, evts)
        | Except.error _ => (ctx, [])
    else (ctx, [])
  let con := resolved.1.connection
  ({ resolved.1 with transaction := false, connection := none, done := true },
    resolved.2 ++ [TxEvent.releaseConn con])

/-- Value models a Python value bound into a query: a string or an
integer. -/
inductive Value where
  | vstr (s : String)
  | vint (n : Int)
deriving DecidableEq, Repr

/-- PyArg models the dynamic type of the `update_args` / `query_args`
parameters of the update helper: either an ordered key→value collection
(a dict's items view, a list or a tuple of pairs, which the source treats
identically after `dict.items()`), or a value of any other type. -/
inductive PyArg where
  | pairs (l : List (String × Value))
  | other
deriving DecidableEq, Repr

/-- buildClauses models the rendering loops of the update helper: from a
starting placeholder number, turn each (column, value) pair into a
clause string `col = $n`, incrementing the placeholder number and
collecting the bound values in order. -/
def buildClauses : Nat → List (String × Value) → List String × List Value
  | _, [] => ([], [])
  | qnum, (k, v) :: rest =>
    let r := buildClauses (qnum + 1) rest
    ((k ++ " = $" ++ toString qnum) :: r.1, v :: r.2)

/-- renderUpdate models the statement-building part of the update
helper: `UPDATE <table> SET k = $n, ...` from the assignments, then
` WHERE k = $n AND ...` when conditions are present, with the
placeholder numbering continuing across the two parts and the bound
values collected positionally.  A non-collection `update_args` or
`query_args` raises the corresponding DatabaseError. -/
def renderUpdate (tablename : String) (update_args : PyArg)
    (query_args : Option PyArg) : Except DatabaseError (String × List Value) :=
  let query := "UPDATE " ++ tablename ++ " SET "
  match update_args with
  | PyArg.other => Except.error ⟨"expected dict or list for update_args"⟩
  | PyArg.pairs upairs =>
    let setr := buildClauses 1 upairs
    let query := query ++ String.intercalate (", ") setr.1
    match query_args with
    | none => Except.ok (query, setr.2)
    | some PyArg.other =>
      Except.error ⟨"expected dict or list or None for query_args"⟩
    | some (PyArg.pairs qpairs) =>
      let wherer := buildClauses (1 + upairs.length) qpairs
      let query := query ++ " WHERE " ++ String.intercalate (" AND ") wherer.1
      Except.ok (query, setr.2 ++ wherer.2)

/-- respFirstCharErrorCheck models the source's
`resp and resp[0].startswith("ERROR:")` test on the driver's status
string: `resp[0]` is the one-character string holding the first
character of the response, and the test asks whether "ERROR:" is a
prefix of that one-character string. -/
def respFirstCharErrorCheck (resp : String) : Bool :=
  match resp.toList with
  | [] => false
  | c :: _ => List.isPrefixOf (String.toList ("ERROR:")) [c]

/-- update models the whole update helper: require an active
transaction, render the statement, execute it against the connection
(the driver's status response is the `driverResp` parameter), and raise
a DatabaseError carrying the response when the first-character check
fires.  On success it returns the rendered query, the positional
arguments and the driver response. -/
def HandlerDatabasePoolContext.update (ctx : HandlerDatabasePoolContext)
    (tablename : String) (update_args : PyArg) (query_args : Option PyArg)
    (driverResp : String) :
    Except DatabaseError (String × List Value × String) :=
  if ctx.transaction = false then
    Except.error ⟨"No transaction in progress"⟩
  else
    match renderUpdate tablename update_args query_args with
    | Except.error e => Except.error e
    | Except.ok (query, arglist) =>
      if respFirstCharErrorCheck driverResp then
        Except.error ⟨driverResp⟩
      else
        Except.ok (query, arglist, driverResp)

/-- GlobalState models the process-wide pool registry
(`_global_database_pool`). -/
structure GlobalState where
  globalPool : Option Nat
deriving DecidableEq, Repr

/-- AcqOutcome models what `pool.acquire(timeout)` does on the first
attempt inside `__aenter__`: hand back a connection or raise the
driver's ConnectionDoesNotExistError. -/
inductive AcqOutcome where
  | acquired (con : Nat)
  | connDoesNotExist
deriving DecidableEq, Repr

/-- EnterStatus models how `__aenter__` ends: scope entered, the
"Connection already in progress" DatabaseError, the re-raised
ConnectionDoesNotExistError, the assertion failure inside
`get_database_pool` when no pool is registered, or `sys.exit(1)` when
the one-shot recovery fails. -/
inductive EnterStatus where
  | entered
  | errAlreadyInProgress
  | errConnDoesNotExist
  | errAssertNoGlobalPool
  | sysExit
deriving DecidableEq, Repr

/-- EnterEvt records the externally visible steps of `__aenter__`:
acquiring from a pool, clearing the registry, closing a pool, re-running
the prepare-database/migration-wait startup procedure, and starting the
transaction. -/
inductive EnterEvt where
  | acquireFrom (pool : Nat)
  | clearRegistry
  | closePool (pool : Nat)
  | prepareDatabaseMigrationWait
  | startTransaction
deriving DecidableEq, Repr

/-- aenter models `__aenter__`.  `acq1` is the outcome of the first
acquisition from the scope's pool; `recovery` is the outcome of the
one-shot recovery path (close old pool, re-run prepare_database with
migration-wait producing a fresh pool, acquire from it): `some (newPool,
con)` when every step succeeds, `none` when any of them fails.  Returns
the final status, the scope state after the call, the registry state
after the call, and the event trace. -/
def HandlerDatabasePoolContext.aenter (ctx : HandlerDatabasePoolContext)
    (gs : GlobalState) (acq1 : AcqOutcome) (recovery : Option (Nat × Nat)) :
    EnterStatus × HandlerDatabasePoolContext × GlobalState × List EnterEvt :=
  if ctx.connection.isSome then
    (EnterStatus.errAlreadyInProgress, ctx, gs, [])
  else
    match acq1 with
    | AcqOutcome.acquired con =>
      (EnterStatus.entered,
        { ctx with connection := some con, transaction := true }, gs,
        [EnterEvt.acquireFrom ctx.pool, EnterEvt.startTransaction])
    | AcqOutcome.connDoesNotExist =>
      match gs.globalPool with
      | none =>
        (EnterStatus.errAssertNoGlobalPool, ctx, gs,
          [EnterEvt.acquireFrom ctx.pool])
      | some g =>
        if g = ctx.pool then
          match recovery with
          | some (newPool, con) =>
            (EnterStatus.entered,
              { ctx with
                  pool := newPool
                  connection := some con
                  transaction := true },
              { globalPool := some newPool },
              [EnterEvt.acquireFrom ctx.pool, EnterEvt.clearRegistry,
                EnterEvt.closePool ctx.pool,
                EnterEvt.prepareDatabaseMigrationWait,
                EnterEvt.acquireFrom newPool, EnterEvt.startTransaction])
          | none =>
            (EnterStatus.sysExit, ctx, { globalPool := none },
              [EnterEvt.acquireFrom ctx.pool, EnterEvt.clearRegistry])
        else
          (EnterStatus.errConnDoesNotExist, ctx, gs,
            [EnterEvt.acquireFrom ctx.pool])

/-- MigrationEnv models the filesystem and driver environment the
migration runner sees: whether `sql/create_tables.sql` exists, which
numbered migration scripts `sql/migrate_{:08}.sql` exist, which of them
execute without error, and the value left in the `database_version` row
after the bootstrap script runs (0 when the script does not update the
row the runner just initialised to 0). -/
structure MigrationEnv where
  bootstrapExists : Bool
  scriptExists : Nat → Bool
  scriptOk : Nat → Bool
  bootstrapVersion : Nat

/-- DbEvt records the externally visible actions of the migration
runner: creating the version table, inserting the initial version row,
executing the bootstrap script, executing one migration script, the
single final version update, and the version-mismatch warning. -/
inductive DbEvt where
  | createVersionTable
  | insertVersion (n : Nat)
  | execBootstrap
  | execScript (n : Nat)
  | setVersion (n : Nat)
  | warnMismatch (dbv latest : Nat)
deriving DecidableEq, Repr

/-- discoverFrom models the probing loop `version += 1; exists?`: from a
current version, advance while the next numbered script exists, stopping
at the first gap.  `fuel` bounds the number of probes (the source loop
terminates because only finitely many script files exist). -/
def discoverFrom (ex : Nat → Bool) : Nat → Nat → Nat
  | 0, version => version
  | fuel + 1, version =>
    if ex (version + 1) then discoverFrom ex fuel (version + 1) else version

/-- discoverLatest is the "highest available migration sequence number"
computation shared by the runner's fresh path and the waiter: probe from
1 upward until the first missing script. -/
def discoverLatest (ex : Nat → Bool) (fuel : Nat) : Nat :=
  discoverFrom ex fuel 0

/-- migrateFrom models the migration loop of create_tables on an
existing database: starting from the recorded version, repeatedly try
the next numbered script; if it exists and succeeds, continue; if it
exists and raises, stop with the version decremented back to the last
success and remember the failing index; if it does not exist, stop.
Returns the final version, the failing script index when one failed, and
the trace of executed scripts. -/
def migrateFrom (env : MigrationEnv) : Nat → Nat → Nat × Option Nat × List DbEvt
  | 0, version => (version, none, [])
  | fuel + 1, version =>
    if env.scriptExists (version + 1) then
      if env.scriptOk (version + 1) then
        let r := migrateFrom env fuel (version + 1)
        (r.1, r.2.1, DbEvt.execScript (version + 1) :: r.2.2)
      else
        (version, some (version + 1), [DbEvt.execScript (version + 1)])
    else
      (version, none, [])

/-- create_tables models the migration runner.  `db` is the current
state of the `database_version` row (`none` when the table does not
exist).  Returns the final version row, the event trace, and the failing
script index that is re-raised to the caller (when a migration script
failed).  With the bootstrap script absent the runner logs and returns.
On a fresh database it creates the version table, inserts 0, applies the
bootstrap script, probes for the highest migration script and warns on a
version mismatch, applying no migration script.  On an existing database
it runs the migration loop and persists the reached version in a single
update. -/
def create_tables (env : MigrationEnv) (fuel : Nat) (db : Option Nat) :
    Option Nat × List DbEvt × Option Nat :=
  if env.bootstrapExists = false then (db, [], none)
  else
    match db with
    | none =>
      let latest := discoverLatest env.scriptExists fuel
      let warnEvts :=
        if 0 < latest ∧ env.bootstrapVersion ≠ latest then
          [DbEvt.warnMismatch env.bootstrapVersion latest]
        else []
      (some env.bootstrapVersion,
        [DbEvt.createVersionTable, DbEvt.insertVersion 0,
          DbEvt.execBootstrap] ++ warnEvts,
        none)
    | some version =>
      let r := migrateFrom env fuel version
      (some r.1, r.2.2 ++ [DbEvt.setVersion r.1], r.2.1)

/-- WaitResult models how wait_for_migration ends: the bootstrap script
is missing (log and return), the stored version matched the expected one
at poll number `i` (counted from 0), or the polling trace ran out
without a match (the source would still be sleeping and polling). -/
inductive WaitResult where
  | missingBootstrap
  | matchedAt (i : Nat)
  | stillWaiting
deriving DecidableEq, Repr

/-- pollLoop models the polling loop of wait_for_migration over a trace
of observations of the `database_version` row, one per poll: `none`
means the table does not exist yet (the UndefinedTableError is swallowed
and polling continues), `some v` is the stored version.  The loop
returns at the first observation equal to the expected version. -/
def pollLoop (expected : Nat) : List (Option Nat) → WaitResult
  | [] => WaitResult.stillWaiting
  | obs :: rest =>
    let keepWaiting :=
      match pollLoop expected rest with
      | WaitResult.matchedAt i => WaitResult.matchedAt (i + 1)
      | r => r
    match obs with
    | some v => if expected = v then WaitResult.matchedAt 0 else keepWaiting
    | none => keepWaiting

/-- wait_for_migration models the migration waiter: with the bootstrap
script missing it logs and returns; otherwise it computes the expected
version as the highest migration script number discovered by probing
from 1 until the first gap, then polls until the stored version matches
it. -/
def wait_for_migration (env : MigrationEnv) (fuel : Nat)
    (trace : List (Option Nat)) : WaitResult :=
  if env.bootstrapExists = false then WaitResult.missingBootstrap
  else pollLoop (discoverLatest env.scriptExists fuel) trace

/-- specClauseList renders, following the spec's words, the clause list
`k1 = $start, k2 = $start+1, ...` for an ordered key→value collection:
one clause per pair, consecutive placeholder numbers. -/
def specClauseList (start : Nat) : List (String × Value) → List String
  | [] => []
  | (k, _) :: rest =>
    (k ++ " = $" ++ toString start) :: specClauseList (start + 1) rest

/-- isReleaseEvent recognises the release of a connection back to the
pool in a transaction-scope event trace. -/
def isReleaseEvent : TxEvent → Bool
  | TxEvent.releaseConn _ => true
  | _ => false

/-
Theorems checking the claims.
-/

/-- C1: every connection returned by SafePool acquisition is open; every
closed connection handed back by the underlying driver pool is released
back to it and acquisition is retried, for any number of retries, until
an open connection is obtained. -/
theorem safePool_never_returns_closed (cs : List Conn)
    (hopen : ∃ c ∈ cs, c.closed = false) :
    ∃ con released, SafePool.acquire cs = some (con, released) ∧
      con.closed = false ∧ ∀ c ∈ released, c.closed = true := by
  induction cs with
  | nil => simp at hopen
  | cons a rest ih =>
    by_cases ha : a.closed
    · have hrest : ∃ c ∈ rest, c.closed = false := by
        obtain ⟨c, hc, hcf⟩ := hopen
        rcases List.mem_cons.mp hc with h | h
        · subst h; rw [ha] at hcf; cases hcf
        · exact ⟨c, h, hcf⟩
      obtain ⟨con, released, heq, hconn, hrel⟩ := ih hrest
      refine ⟨con, a :: released, ?_, hconn, ?_⟩
      · simp [SafePool.acquire, ha, heq]
      · intro c hc
        rcases List.mem_cons.mp hc with h | h
        · subst h; exact ha
        · exact hrel c h
    · refine ⟨a, [], ?_, by simpa using ha, by simp⟩
      simp [SafePool.acquire, ha]

/-- Witness for C1 at a concrete pool state: the underlying pool offers
a closed connection first, then an open one. -/
theorem safePool_never_returns_closed_witness :
    ∃ con released,
      SafePool.acquire [⟨1, true⟩, ⟨2, false⟩] = some (con, released) ∧
      con.closed = false ∧ ∀ c ∈ released, c.closed = true :=
  safePool_never_returns_closed [⟨1, true⟩, ⟨2, false⟩]
    ⟨⟨2, false⟩, by decide, rfl⟩

/-- A list of callback-run events contains no release event. -/
theorem countP_isRelease_map_runCallback (cbs : List Nat) :
    (cbs.map TxEvent.runCallback).countP isReleaseEvent = 0 := by
  rw [List.countP_eq_zero]
  intro e he
  obtain ⟨cb, _, rfl⟩ := List.mem_map.mp he
  simp [isReleaseEvent]

/-- C2: once a scope has been entered, exit always resolves the
transaction and releases the borrowed connection exactly once, in every
case after the resolution: rollback when an error is in flight or
autocommit is off, commit (firing the callbacks) when autocommit is on
and no error occurred, nothing when the body already ended the
transaction; the scope ends done with its connection and transaction
slots cleared. -/
theorem aexit_resolves_and_releases_once (ctx : HandlerDatabasePoolContext)
    (reg : Nat → List Nat) (errInFlight : Bool) (c : Nat)
    (hcon : ctx.connection = some c) :
    ((ctx.aexit reg errInFlight).1.done = true ∧
      (ctx.aexit reg errInFlight).1.connection = none ∧
      (ctx.aexit reg errInFlight).1.transaction = false) ∧
    (ctx.aexit reg errInFlight).2.countP isReleaseEvent = 1 ∧
    (ctx.transaction = false →
      (ctx.aexit reg errInFlight).2 = [TxEvent.releaseConn (some c)]) ∧
    (ctx.transaction = true → (errInFlight = true ∨ ctx.autocommit = false) →
      (ctx.aexit reg errInFlight).2 =
        [TxEvent.rollbackTx, TxEvent.releaseConn (some c)]) ∧
    (ctx.transaction = true → errInFlight = false → ctx.autocommit = true →
      (ctx.aexit reg errInFlight).2 =
        TxEvent.commitTx :: ctx.callbacks.map TxEvent.runCallback ++
          [TxEvent.releaseConn (some c)]) := by
  by_cases htx : ctx.transaction
  · by_cases herr : errInFlight = true ∨ ctx.autocommit = false
    · have hres : (if errInFlight || ctx.autocommit = false then true else false) = true := by
        rcases herr with h | h <;> simp [h]
      rcases herr with h | h <;>
        simp_all [HandlerDatabasePoolContext.aexit, hcon, htx,
          List.countP_cons, isReleaseEvent]
    · push_neg at herr
      obtain ⟨herr1, herr2⟩ := herr
      have herr1 : errInFlight = false := by
        cases errInFlight
        · rfl
        · exact absurd rfl herr1
      have herr2 : ctx.autocommit = true := by
        cases h : ctx.autocommit
        · exact absurd h herr2
        · rfl
      simp_all [HandlerDatabasePoolContext.aexit,
        HandlerDatabasePoolContext.commit, hcon, htx, herr1, herr2,
        List.countP_cons, List.countP_append, isReleaseEvent,
        countP_isRelease_map_runCallback]
  · simp_all [HandlerDatabasePoolContext.aexit, hcon,
      List.countP_cons, isReleaseEvent]

/-- Witness for C2 at a concrete entered scope (autocommit off, no
error in flight): the transaction is rolled back, then the connection is
released, and the scope ends done. -/
theorem aexit_resolves_and_releases_once_witness :
    (HandlerDatabasePoolContext.aexit
        { pool := 0, timeout := none, autocommit := false,
          connection := some 5, transaction := true, done := false,
          callbacks := [] }
        (fun _ => []) false).2 =
      [TxEvent.rollbackTx, TxEvent.releaseConn (some 5)] :=
  (aexit_resolves_and_releases_once
      { pool := 0, timeout := none, autocommit := false,
        connection := some 5, transaction := true, done := false,
        callbacks := [] }
      (fun _ => []) false 5 rfl).2.2.2.1 rfl (Or.inr rfl)

/-- C4: committing with an active transaction succeeds and fires exactly
the callbacks registered before the commit, once each (the registered
list is duplicate-free by on_commit's deduplication), in registration
order, after the transaction commit; the live callback list is cleared
first, so callbacks registered during the run (described by `reg`) do
not fire for this commit and are exactly what remains registered for the
next one. -/
theorem commit_fires_callbacks_in_order (ctx : HandlerDatabasePoolContext)
    (reg : Nat → List Nat) (create_new : Bool) (htx : ctx.transaction = true) :
    ∃ ctx2 evts, ctx.commit reg create_new = Except.ok (ctx2, evts) ∧
      evts = TxEvent.commitTx :: ctx.callbacks.map TxEvent.runCallback ++
        (if create_new then [TxEvent.startTx] else []) ∧
      ctx2.callbacks =
        ctx.callbacks.foldl (fun acc cb => (reg cb).foldl addCallback acc) [] ∧
      (∀ cb, cb ∉ ctx.callbacks → TxEvent.runCallback cb ∉ evts) ∧
      (ctx.callbacks.Nodup → ∀ cb ∈ ctx.callbacks,
        evts.count (TxEvent.runCallback cb) = 1) := by
  have hinj : Function.Injective TxEvent.runCallback := by
    intro a b h; cases h; rfl
  simp only [HandlerDatabasePoolContext.commit, htx, if_true]
  refine ⟨_, _, rfl, rfl, ?_, ?_, ?_⟩
  · cases create_new <;> rfl
  · intro cb hcb hmem
    rcases List.mem_cons.mp hmem with h | h
    · simp at h
    rcases List.mem_append.mp h with h | h
    · obtain ⟨x, hx, hxeq⟩ := List.mem_map.mp h
      exact hcb (hinj hxeq ▸ hx)
    · cases create_new <;> simp_all
  · intro hnd cb hcb
    have h2 : List.count (TxEvent.runCallback cb)
        (ctx.callbacks.map TxEvent.runCallback) = 1 := by
      rw [List.count_map_of_injective ctx.callbacks TxEvent.runCallback hinj cb]
      exact List.count_eq_one_of_mem hnd hcb
    cases create_new <;> simp [List.count_cons, List.count_append, h2]

/-- Witness for C4 at a concrete scope with callbacks 1 and 2
registered, each registering a further callback while it runs: the
commit fires 1 then 2 after the transaction commit and defers the new
registrations. -/
theorem commit_fires_callbacks_in_order_witness :
    ∃ p, HandlerDatabasePoolContext.commit
        { pool := 0, timeout := none, autocommit := true,
          connection := some 5, transaction := true, done := false,
          callbacks := [1, 2] }
        (fun cb => [cb + 10]) false = Except.ok p ∧
      p.2 = [TxEvent.commitTx, TxEvent.runCallback 1, TxEvent.runCallback 2] ∧
      p.1.callbacks = [11, 12] := by
  obtain ⟨ctx2, evts, heq, hevts, hcbs, -, -⟩ :=
    commit_fires_callbacks_in_order
      { pool := 0, timeout := none, autocommit := true,
        connection := some 5, transaction := true, done := false,
        callbacks := [1, 2] }
      (fun cb => [cb + 10]) false rfl
  refine ⟨(ctx2, evts), heq, by rw [hevts]; rfl, by rw [hcbs]; rfl⟩

/-- C5: on a scope with no active transaction, every query operation
fails with the "No transaction in progress" DatabaseError, and commit
fails with the "No transaction to commit" DatabaseError; none of them
succeeds. -/
theorem no_active_transaction_errors (ctx : HandlerDatabasePoolContext)
    (htx : ctx.transaction = false) :
    (∀ q, ctx.execute q = Except.error ⟨"No transaction in progress"⟩) ∧
    (∀ cmd args, ctx.executemany cmd args =
      Except.error ⟨"No transaction in progress"⟩) ∧
    (∀ q, ctx.fetch q = Except.error ⟨"No transaction in progress"⟩) ∧
    (∀ q col, ctx.fetchval q col =
      Except.error ⟨"No transaction in progress"⟩) ∧
    (∀ q, ctx.fetchrow q = Except.error ⟨"No transaction in progress"⟩) ∧
    (∀ t ua qa resp, ctx.update t ua qa resp =
      Except.error ⟨"No transaction in progress"⟩) ∧
    (∀ reg create_new, ctx.commit reg create_new =
      Except.error ⟨"No transaction to commit"⟩) := by
  refine ⟨?_, ?_, ?_, ?_, ?_, ?_, ?_⟩ <;> intros <;>
    simp [HandlerDatabasePoolContext.execute,
      HandlerDatabasePoolContext.executemany,
      HandlerDatabasePoolContext.fetch,
      HandlerDatabasePoolContext.fetchval,
      HandlerDatabasePoolContext.fetchrow,
      HandlerDatabasePoolContext.update,
      HandlerDatabasePoolContext.commit, htx]

/-- Witness for C5 on a freshly constructed (never entered) scope. -/
theorem no_active_transaction_errors_witness :
    HandlerDatabasePoolContext.execute
      { pool := 0, timeout := none, autocommit := false, connection := none,
        transaction := false, done := false, callbacks := [] }
      ("SELECT 1") = Except.error ⟨"No transaction in progress"⟩ :=
  (no_active_transaction_errors
      { pool := 0, timeout := none, autocommit := false, connection := none,
        transaction := false, done := false, callbacks := [] }
      rfl).1 ("SELECT 1")

/-- The clause-building loop produces the spec-shaped clause list and
binds the values in iteration order. -/
theorem buildClauses_eq (q : Nat) (l : List (String × Value)) :
    buildClauses q l = (specClauseList q l, l.map Prod.snd) := by
  induction l generalizing q with
  | nil => rfl
  | cons p rest ih =>
    obtain ⟨k, v⟩ := p
    simp [buildClauses, specClauseList, ih]

/-- Counterexample for C8: the update helper does not fail on empty
assignments (it renders the malformed statement `UPDATE t SET ` and
hands it to the driver), and it does not raise a database error when the
driver's response reports an error (the source checks whether "ERROR:"
is a prefix of the one-character string `resp[0]`, which never holds). -/
theorem update_claim_counterexample :
    (HandlerDatabasePoolContext.update
        { pool := 0, timeout := none, autocommit := false,
          connection := some 1, transaction := true, done := false,
          callbacks := [] }
        ("t") (PyArg.pairs []) none ("UPDATE 0") =
      Except.ok ("UPDATE t SET ", [], "UPDATE 0")) ∧
    (HandlerDatabasePoolContext.update
        { pool := 0, timeout := none, autocommit := false,
          connection := some 1, transaction := true, done := false,
          callbacks := [] }
        ("t") (PyArg.pairs [("a", Value.vint 1)]) none
        ("ERROR: relation does not exist") =
      Except.ok ("UPDATE t SET a = $1", [Value.vint 1],
        "ERROR: relation does not exist")) :=
  ⟨rfl, rfl⟩

/-- C8 amended: update renders `UPDATE <table> SET k1 = $1, k2 = $2,
...` followed, when conditions are given, by ` WHERE c1 = $n AND ...`
with the placeholder numbering continuing across the parts, binding all
assignment values then all condition values positionally in iteration
order; it fails with a database error if the assignments are not a
mapping or ordered-pairs collection, or if conditions are present but
are not one; empty assignments are NOT rejected (they render the
malformed statement `UPDATE <table> SET ` with no bound values, handed
to the driver); and the driver-response error check inspects only the
first character of the response, so it never raises. -/
theorem update_renders_and_validates :
    (∀ t l m, renderUpdate t (PyArg.pairs l) (some (PyArg.pairs m)) =
      Except.ok ("UPDATE " ++ t ++ " SET " ++
        String.intercalate (", ") (specClauseList 1 l) ++ " WHERE " ++
        String.intercalate (" AND ") (specClauseList (1 + l.length) m),
        l.map Prod.snd ++ m.map Prod.snd)) ∧
    (∀ t l, renderUpdate t (PyArg.pairs l) none =
      Except.ok ("UPDATE " ++ t ++ " SET " ++
        String.intercalate (", ") (specClauseList 1 l),
        l.map Prod.snd)) ∧
    (∀ t qa, renderUpdate t PyArg.other qa =
      Except.error ⟨"expected dict or list for update_args"⟩) ∧
    (∀ t l, renderUpdate t (PyArg.pairs l) (some PyArg.other) =
      Except.error ⟨"expected dict or list or None for query_args"⟩) ∧
    (∀ t, renderUpdate t (PyArg.pairs []) none =
      Except.ok ("UPDATE " ++ t ++ " SET ", [])) ∧
    (∀ resp, respFirstCharErrorCheck resp = false) := by
  refine ⟨?_, ?_, ?_, ?_, ?_, ?_⟩
  · intro t l m
    simp [renderUpdate, buildClauses_eq]
  · intro t l
    simp [renderUpdate, buildClauses_eq]
  · intro t qa
    rfl
  · intro t l
    rfl
  · intro t
    simp [renderUpdate, buildClauses, specClauseList, String.intercalate]
  · intro resp
    unfold respFirstCharErrorCheck
    cases hl : resp.toList with
    | nil => rfl
    | cons c rest =>
      have hE : String.toList ("ERROR:") = ['E', 'R', 'R', 'O', 'R', ':'] := rfl
      rw [hE]
      simp [List.isPrefixOf]

/-- When scripts v+1..N all exist and succeed and script N+1 is absent,
the migration loop reaches N, records no failure, and executes exactly
scripts v+1..N in order. -/
theorem migrateFrom_success (env : MigrationEnv) (fuel v N : Nat)
    (hvN : v ≤ N)
    (hex : ∀ i, v < i → i ≤ N → env.scriptExists i = true ∧ env.scriptOk i = true)
    (hgap : env.scriptExists (N + 1) = false)
    (hfuel : N - v < fuel) :
    migrateFrom env fuel v =
      (N, none, (List.range' (v + 1) (N - v)).map DbEvt.execScript) := by
  induction fuel generalizing v with
  | zero => omega
  | succ fuel ih =>
    by_cases hvtop : v = N
    · subst hvtop
      simp [migrateFrom, hgap]
    · have hv1 : v + 1 ≤ N := by omega
      obtain ⟨he, ho⟩ := hex (v + 1) (by omega) hv1
      have hrec := ih (v + 1) hv1 (fun i h1 h2 => hex i (by omega) h2) (by omega)
      have hlen : N - v = (N - (v + 1)) + 1 := by omega
      rw [hlen, List.range'_succ]
      simp [migrateFrom, he, ho, hrec]

/-- When scripts v+1..K exist, scripts v+1..K-1 succeed and script K
fails, the migration loop stops at K with final version K-1, remembers K
as the failing index, and executes exactly scripts v+1..K in order. -/
theorem migrateFrom_failure (env : MigrationEnv) (fuel v K : Nat)
    (hvK : v < K)
    (hex : ∀ i, v < i → i ≤ K → env.scriptExists i = true)
    (hok : ∀ i, v < i → i < K → env.scriptOk i = true)
    (hfail : env.scriptOk K = false)
    (hfuel : K - v ≤ fuel) :
    migrateFrom env fuel v =
      (K - 1, some K, (List.range' (v + 1) (K - v)).map DbEvt.execScript) := by
  induction fuel generalizing v with
  | zero => omega
  | succ fuel ih =>
    have he : env.scriptExists (v + 1) = true := hex _ (by omega) (by omega)
    by_cases hv1 : v + 1 = K
    · rw [hv1] at he
      have hKv : K - v = 1 := by omega
      have hK1 : K - 1 = v := by omega
      rw [hKv, hK1, List.range'_one]
      simp [migrateFrom, he, hfail, hv1]
    · have h2 : v + 1 < K := by omega
      have ho : env.scriptOk (v + 1) = true := hok _ (by omega) h2
      have hrec := ih (v + 1) h2 (fun i h1 h2 => hex i (by omega) h2)
        (fun i h1 h2 => hok i (by omega) h2) (by omega)
      have hlen : K - v = (K - (v + 1)) + 1 := by omega
      rw [hlen, List.range'_succ]
      simp [migrateFrom, he, ho, hrec]

/-- C3: on an existing database at version V, when scripts V+1..N all
succeed the recorded version becomes N; when script K fails, no script
after K is attempted, the recorded version is persisted as K-1 (the last
index that succeeded) in a single update statement, and the failing
script's error is re-raised after persisting. -/
theorem create_tables_migration_claim :
    (∀ (env : MigrationEnv) (fuel V N : Nat), env.bootstrapExists = true →
      V ≤ N →
      (∀ i, V < i → i ≤ N →
        env.scriptExists i = true ∧ env.scriptOk i = true) →
      env.scriptExists (N + 1) = false → N - V < fuel →
      create_tables env fuel (some V) =
        (some N, (List.range' (V + 1) (N - V)).map DbEvt.execScript ++
          [DbEvt.setVersion N], none)) ∧
    (∀ (env : MigrationEnv) (fuel V K : Nat), env.bootstrapExists = true →
      V < K →
      (∀ i, V < i → i ≤ K → env.scriptExists i = true) →
      (∀ i, V < i → i < K → env.scriptOk i = true) →
      env.scriptOk K = false → K - V ≤ fuel →
      create_tables env fuel (some V) =
        (some (K - 1), (List.range' (V + 1) (K - V)).map DbEvt.execScript ++
          [DbEvt.setVersion (K - 1)], some K) ∧
      ∀ j, K < j → DbEvt.execScript j ∉ (create_tables env fuel (some V)).2.1) := by
  constructor
  · intro env fuel V N hb hVN hex hgap hfuel
    simp [create_tables, hb, migrateFrom_success env fuel V N hVN hex hgap hfuel]
  · intro env fuel V K hb hVK hex hok hfail hfuel
    have hloop := migrateFrom_failure env fuel V K hVK hex hok hfail hfuel
    constructor
    · simp [create_tables, hb, hloop]
    · intro j hj hmem
      rw [create_tables] at hmem
      simp only [hb, if_neg, Bool.true_eq_false, reduceCtorEq, hloop] at hmem
      rcases List.mem_append.mp hmem with h | h
      · obtain ⟨x, hx, hxeq⟩ := List.mem_map.mp h
        have hx2 := List.mem_range'_1.mp hx
        have : x = j := by injection hxeq
        omega
      · simp at h

/-- Witness for C3 at concrete environments: scripts 1..3 all succeed
from version 1 (reaching version 3); scripts 1..3 exist but script 2
fails from version 0 (reaching version 1, script 3 never attempted). -/
theorem create_tables_migration_claim_witness :
    create_tables
      { bootstrapExists := true, scriptExists := fun n => decide (n ≤ 3),
        scriptOk := fun _ => true, bootstrapVersion := 0 } 10 (some 1) =
      (some 3, (List.range' 2 2).map DbEvt.execScript ++
        [DbEvt.setVersion 3], none) ∧
    create_tables
      { bootstrapExists := true, scriptExists := fun n => decide (n ≤ 3),
        scriptOk := fun n => decide (n ≠ 2), bootstrapVersion := 0 } 10 (some 0) =
      (some 1, (List.range' 1 2).map DbEvt.execScript ++
        [DbEvt.setVersion 1], some 2) := by
  constructor
  · exact create_tables_migration_claim.1 _ 10 1 3 rfl (by omega)
      (fun i h1 h2 => ⟨by simpa using h2, rfl⟩) rfl (by omega)
  · exact (create_tables_migration_claim.2 _ 10 0 2 rfl (by omega)
      (fun i h1 h2 => by simpa using by omega)
      (fun i h1 h2 => by simp; omega) rfl (by omega)).1

/-- C6: on a fresh database (version table absent) with the bootstrap
script present, the runner creates the version table, inserts the
initial row with value 0, applies the bootstrap script, and returns
without applying or raising; a warning is emitted exactly when migration
scripts exist and the recorded version differs from the highest
discovered sequence number, and with no migration scripts present no
warning is emitted. -/
theorem create_tables_fresh_claim (env : MigrationEnv) (fuel : Nat)
    (hb : env.bootstrapExists = true) :
    ((create_tables env fuel none).1 = some env.bootstrapVersion ∧
      (create_tables env fuel none).2.2 = none) ∧
    (∀ n, DbEvt.execScript n ∉ (create_tables env fuel none).2.1) ∧
    ((create_tables env fuel none).2.1 =
      [DbEvt.createVersionTable, DbEvt.insertVersion 0, DbEvt.execBootstrap] ++
        (if 0 < discoverLatest env.scriptExists fuel ∧
            env.bootstrapVersion ≠ discoverLatest env.scriptExists fuel then
          [DbEvt.warnMismatch env.bootstrapVersion
            (discoverLatest env.scriptExists fuel)]
        else [])) ∧
    (env.scriptExists 1 = false →
      ∀ d i, DbEvt.warnMismatch d i ∉ (create_tables env fuel none).2.1) := by
  have htrace : (create_tables env fuel none).2.1 =
      [DbEvt.createVersionTable, DbEvt.insertVersion 0, DbEvt.execBootstrap] ++
        (if 0 < discoverLatest env.scriptExists fuel ∧
            env.bootstrapVersion ≠ discoverLatest env.scriptExists fuel then
          [DbEvt.warnMismatch env.bootstrapVersion
            (discoverLatest env.scriptExists fuel)]
        else []) := by
    simp [create_tables, hb]
  refine ⟨⟨?_, ?_⟩, ?_, htrace, ?_⟩
  · simp [create_tables, hb]
  · simp [create_tables, hb]
  · intro n hmem
    rw [htrace] at hmem
    rcases List.mem_append.mp hmem with h | h
    · simp at h
    · revert h
      split <;> simp
  · intro h1 d i hmem
    have hd : discoverLatest env.scriptExists fuel = 0 := by
      cases fuel with
      | zero => rfl
      | succ f => simp [discoverLatest, discoverFrom, h1]
    rw [htrace, hd] at hmem
    simp at hmem

/-- Witness for C6 on a concrete fresh database with the bootstrap
script present and no migration scripts: version row 0, nothing raised,
no warning. -/
theorem create_tables_fresh_claim_witness :
    ((create_tables
        { bootstrapExists := true, scriptExists := fun _ => false,
          scriptOk := fun _ => true, bootstrapVersion := 0 } 10 none).1 =
      some 0 ∧
      (create_tables
        { bootstrapExists := true, scriptExists := fun _ => false,
          scriptOk := fun _ => true, bootstrapVersion := 0 } 10 none).2.2 =
      none) ∧
    DbEvt.warnMismatch 0 3 ∉ (create_tables
      { bootstrapExists := true, scriptExists := fun _ => false,
        scriptOk := fun _ => true, bootstrapVersion := 0 } 10 none).2.1 :=
  ⟨(create_tables_fresh_claim
      { bootstrapExists := true, scriptExists := fun _ => false,
        scriptOk := fun _ => true, bootstrapVersion := 0 } 10 rfl).1,
    (create_tables_fresh_claim
      { bootstrapExists := true, scriptExists := fun _ => false,
        scriptOk := fun _ => true, bootstrapVersion := 0 } 10 rfl).2.2.2
      rfl 0 3⟩

/-- The probing loop of the discovery computation: when scripts v+1..N
all exist and script N+1 is absent, probing from v stops exactly at N. -/
theorem discoverFrom_spec (ex : Nat → Bool) (fuel v N : Nat)
    (hvN : v ≤ N)
    (hex : ∀ i, v < i → i ≤ N → ex i = true)
    (hgap : ex (N + 1) = false)
    (hfuel : N - v < fuel) :
    discoverFrom ex fuel v = N := by
  induction fuel generalizing v with
  | zero => omega
  | succ fuel ih =>
    by_cases hvtop : v = N
    · subst hvtop
      simp [discoverFrom, hgap]
    · have hv1 : v + 1 ≤ N := by omega
      have he : ex (v + 1) = true := hex _ (by omega) hv1
      have hrec := ih (v + 1) hv1 (fun i h1 h2 => hex i (by omega) h2) (by omega)
      simp [discoverFrom, he, hrec]

/-- The polling loop returns at the first observation matching the
expected version. -/
theorem pollLoop_matchedAt (expected : Nat) (trace : List (Option Nat))
    (i : Nat) (hi : trace.get? i = some (some expected))
    (hj : ∀ j, j < i → trace.get? j ≠ some (some expected)) :
    pollLoop expected trace = WaitResult.matchedAt i := by
  induction trace generalizing i with
  | nil => simp at hi
  | cons obs rest ih =>
    cases i with
    | zero =>
      have : obs = some expected := by simpa using hi
      subst this
      simp [pollLoop]
    | succ i =>
      have h0 : obs ≠ some expected := by
        have := hj 0 (Nat.succ_pos i)
        simpa using this
      have hrec := ih i (by simpa using hi)
        (fun j hji => by simpa using hj (j + 1) (by omega))
      cases obs with
      | none => simp [pollLoop, hrec]
      | some v =>
        have hne : ¬expected = v := fun h => h0 (by rw [h])
        simp [pollLoop, hrec, hne]

/-- The polling loop keeps waiting while no observation matches the
expected version. -/
theorem pollLoop_stillWaiting (expected : Nat) (trace : List (Option Nat))
    (h : ∀ obs ∈ trace, obs ≠ some expected) :
    pollLoop expected trace = WaitResult.stillWaiting := by
  induction trace with
  | nil => rfl
  | cons obs rest ih =>
    have h0 : obs ≠ some expected := h obs (List.mem_cons_self obs rest)
    have hrec := ih (fun o ho => h o (List.mem_cons_of_mem obs ho))
    cases obs with
    | none => simp [pollLoop, hrec]
    | some v =>
      have hne : ¬expected = v := fun heq => h0 (by rw [heq])
      simp [pollLoop, hrec, hne]

/-- C7: the migration waiter computes the expected version as the
highest migration script number discovered by probing from 1 until the
first gap; it keeps waiting while the version table is missing (the
error is swallowed) or the stored version differs, and returns at the
first poll whose stored version matches the expected number. -/
theorem wait_for_migration_claim :
    (∀ (env : MigrationEnv) (fuel N : Nat),
      (∀ i, 1 ≤ i → i ≤ N → env.scriptExists i = true) →
      env.scriptExists (N + 1) = false → N < fuel →
      discoverLatest env.scriptExists fuel = N) ∧
    (∀ (env : MigrationEnv) (fuel : Nat) (trace : List (Option Nat)) (i : Nat),
      env.bootstrapExists = true →
      trace.get? i = some (some (discoverLatest env.scriptExists fuel)) →
      (∀ j, j < i →
        trace.get? j ≠ some (some (discoverLatest env.scriptExists fuel))) →
      wait_for_migration env fuel trace = WaitResult.matchedAt i) ∧
    (∀ (env : MigrationEnv) (fuel : Nat) (trace : List (Option Nat)),
      env.bootstrapExists = true →
      (∀ obs ∈ trace, obs ≠ some (discoverLatest env.scriptExists fuel)) →
      wait_for_migration env fuel trace = WaitResult.stillWaiting) := by
  refine ⟨?_, ?_, ?_⟩
  · intro env fuel N hex hgap hfuel
    exact discoverFrom_spec env.scriptExists fuel 0 N (Nat.zero_le N)
      (fun i h1 h2 => hex i h1 h2) hgap (by omega)
  · intro env fuel trace i hb hi hj
    simp only [wait_for_migration, hb, Bool.true_eq_false, if_neg,
      reduceCtorEq]
    exact pollLoop_matchedAt _ trace i hi hj
  · intro env fuel trace hb h
    simp only [wait_for_migration, hb, Bool.true_eq_false, if_neg,
      reduceCtorEq]
    exact pollLoop_stillWaiting _ trace h

/-- Witness for C7: with migration scripts 1..3 present the expected
version is 3; on the trace "table missing, version 2, version 3" the
waiter keeps polling twice and returns at the third poll. -/
theorem wait_for_migration_claim_witness :
    discoverLatest
      (fun n => decide (n ≤ 3)) 10 = 3 ∧
    wait_for_migration
      { bootstrapExists := true, scriptExists := fun n => decide (n ≤ 3),
        scriptOk := fun _ => true, bootstrapVersion := 3 } 10
      [none, some 2, some 3] = WaitResult.matchedAt 2 :=
  ⟨wait_for_migration_claim.1
      { bootstrapExists := true, scriptExists := fun n => decide (n ≤ 3),
        scriptOk := fun _ => true, bootstrapVersion := 3 } 10 3
      (fun i h1 h2 => by simpa using h2) rfl (by omega),
    wait_for_migration_claim.2.1
      { bootstrapExists := true, scriptExists := fun n => decide (n ≤ 3),
        scriptOk := fun _ => true, bootstrapVersion := 3 } 10
      [none, some 2, some 3] 2 rfl rfl
      (by intro j hji; interval_cases j <;> decide)⟩

/-- C9: when the first acquisition raises the driver's
connection-does-not-exist error and the scope's pool is the process-wide
default pool, entry clears the registry, closes the old pool, re-runs
the migration-wait startup procedure for a fresh pool and retries
acquisition exactly once, entering on success and terminating the
process when the recovery fails; when the scope's pool is not the
default pool the acquisition error propagates with no recovery attempted
and no change to the registry. -/
theorem aenter_recovery_claim :
    (∀ (ctx : HandlerDatabasePoolContext) (gs : GlobalState)
        (newPool con : Nat),
      ctx.connection = none → gs.globalPool = some ctx.pool →
      ctx.aenter gs AcqOutcome.connDoesNotExist (some (newPool, con)) =
        (EnterStatus.entered,
          { ctx with
              pool := newPool
              connection := some con
              transaction := true },
          { globalPool := some newPool },
          [EnterEvt.acquireFrom ctx.pool, EnterEvt.clearRegistry,
            EnterEvt.closePool ctx.pool, EnterEvt.prepareDatabaseMigrationWait,
            EnterEvt.acquireFrom newPool, EnterEvt.startTransaction])) ∧
    (∀ (ctx : HandlerDatabasePoolContext) (gs : GlobalState),
      ctx.connection = none → gs.globalPool = some ctx.pool →
      ctx.aenter gs AcqOutcome.connDoesNotExist none =
        (EnterStatus.sysExit, ctx, { globalPool := none },
          [EnterEvt.acquireFrom ctx.pool, EnterEvt.clearRegistry])) ∧
    (∀ (ctx : HandlerDatabasePoolContext) (gs : GlobalState) (g : Nat)
        (recovery : Option (Nat × Nat)),
      ctx.connection = none → gs.globalPool = some g → g ≠ ctx.pool →
      ctx.aenter gs AcqOutcome.connDoesNotExist recovery =
        (EnterStatus.errConnDoesNotExist, ctx, gs,
          [EnterEvt.acquireFrom ctx.pool])) := by
  refine ⟨?_, ?_, ?_⟩
  · intro ctx gs newPool con hcon hgs
    simp [HandlerDatabasePoolContext.aenter, hcon, hgs]
  · intro ctx gs hcon hgs
    simp [HandlerDatabasePoolContext.aenter, hcon, hgs]
  · intro ctx gs g recovery hcon hgs hne
    simp [HandlerDatabasePoolContext.aenter, hcon, hgs, hne]

/-- Witness for C9 at concrete states: recovery succeeding with a fresh
pool 7 and connection 3, recovery failing, and a non-default pool whose
error propagates untouched. -/
theorem aenter_recovery_claim_witness :
    HandlerDatabasePoolContext.aenter
      { pool := 1, timeout := none, autocommit := false, connection := none,
        transaction := false, done := false, callbacks := [] }
      { globalPool := some 1 } AcqOutcome.connDoesNotExist (some (7, 3)) =
      (EnterStatus.entered,
        { pool := 7, timeout := none, autocommit := false,
          connection := some 3, transaction := true, done := false,
          callbacks := [] },
        { globalPool := some 7 },
        [EnterEvt.acquireFrom 1, EnterEvt.clearRegistry, EnterEvt.closePool 1,
          EnterEvt.prepareDatabaseMigrationWait, EnterEvt.acquireFrom 7,
          EnterEvt.startTransaction]) ∧
    HandlerDatabasePoolContext.aenter
      { pool := 1, timeout := none, autocommit := false, connection := none,
        transaction := false, done := false, callbacks := [] }
      { globalPool := some 1 } AcqOutcome.connDoesNotExist none =
      (EnterStatus.sysExit,
        { pool := 1, timeout := none, autocommit := false, connection := none,
          transaction := false, done := false, callbacks := [] },
        { globalPool := none },
        [EnterEvt.acquireFrom 1, EnterEvt.clearRegistry]) ∧
    HandlerDatabasePoolContext.aenter
      { pool := 1, timeout := none, autocommit := false, connection := none,
        transaction := false, done := false, callbacks := [] }
      { globalPool := some 9 } AcqOutcome.connDoesNotExist none =
      (EnterStatus.errConnDoesNotExist,
        { pool := 1, timeout := none, autocommit := false, connection := none,
          transaction := false, done := false, callbacks := [] },
        { globalPool := some 9 },
        [EnterEvt.acquireFrom 1]) :=
  ⟨aenter_recovery_claim.1
      { pool := 1, timeout := none, autocommit := false, connection := none,
        transaction := false, done := false, callbacks := [] }
      { globalPool := some 1 } 7 3 rfl rfl,
    aenter_recovery_claim.2.1
      { pool := 1, timeout := none, autocommit := false, connection := none,
        transaction := false, done := false, callbacks := [] }
      { globalPool := some 1 } rfl rfl,
    aenter_recovery_claim.2.2
      { pool := 1, timeout := none, autocommit := false, connection := none,
        transaction := false, done := false, callbacks := [] }
      { globalPool := some 9 } 9 none rfl rfl (by decide)⟩

/-- C10: entering a scope that is already entered (its connection slot
is occupied) fails with the "Connection already in progress"
DatabaseError before any acquisition is attempted, leaving the scope,
the registry and the event trace unchanged. -/
theorem aenter_already_in_progress (ctx : HandlerDatabasePoolContext)
    (gs : GlobalState) (acq1 : AcqOutcome) (recovery : Option (Nat × Nat))
    (c : Nat) (hcon : ctx.connection = some c) :
    ctx.aenter gs acq1 recovery =
      (EnterStatus.errAlreadyInProgress, ctx, gs, []) := by
  simp [HandlerDatabasePoolContext.aenter, hcon]

/-- Witness for C10 on a concrete already-entered scope. -/
theorem aenter_already_in_progress_witness :
    HandlerDatabasePoolContext.aenter
      { pool := 1, timeout := none, autocommit := false,
        connection := some 4, transaction := true, done := false,
        callbacks := [2] }
      { globalPool := some 1 } (AcqOutcome.acquired 6) none =
      (EnterStatus.errAlreadyInProgress,
        { pool := 1, timeout := none, autocommit := false,
          connection := some 4, transaction := true, done := false,
          callbacks := [2] },
        { globalPool := some 1 }, []) :=
  aenter_already_in_progress
    { pool := 1, timeout := none, autocommit := false,
      connection := some 4, transaction := true, done := false,
      callbacks := [2] }
    { globalPool := some 1 } (AcqOutcome.acquired 6) none 4 rfl

end Toshi
